import Mathlib

/-!
Shallow embedding of the payroll engine of the `ai-payroll-system` repository.

The embedded code:
* `backend/models/Department.js` — the `Payroll` mongoose schema: the
  pre-save totals hook, the unique compound index on
  (employee, month, year), the statics `getTotalPayroll`, and the
  instance method `markAsPaid`;
* `backend/models/Employee.js` — the employee salary/deduction
  configuration and the `grossSalary` virtual;
* the payroll controller (`src/unnamed/part_002`) — `processPayroll`,
  `updatePayroll`, `markAsPaid`.

Modelling conventions:
* JS numbers are embedded as `Int` (the spec's examples are integral;
  floating-point rounding is not the subject of any claim);
* MongoDB documents live in a `Store` — a list of records plus a
  fresh-id counter; the unique compound index is part of the store's
  insert primitive, mirroring that uniqueness is enforced by the
  storage layer and not by controller code;
* a fallible operation returns `Except PError _`; returning an error
  means nothing was written (all writes in the source happen after the
  corresponding guard);
* `Date.now()` is passed in as an explicit `now : Int` argument;
* a mongoose document whose required `salary.basic` is absent is
  modelled by `Option Int`: building payroll data from such an employee
  yields `none`, matching the `ValidationError` that `Payroll.create`
  raises on a document with an undefined required number;
* required schema paths with no default — `totalEarnings`,
  `totalDeductions`, `netSalary` — are `Option Int` on the record, with
  `none` for an unset path.  Mongoose's `validateBeforeSave` hook is
  unshifted in front of every user `pre('save')` hook, so on `create`
  and `save` VALIDATION RUNS FIRST and the totals hook only afterwards.
  Since the controller's `payrollData` never sets those three paths,
  every `Payroll.create` issued by `processPayroll` is rejected by
  required-path validation before the hook could compute them: the
  repository as it stands never persists a payroll record.  Records
  already present in the collection (written by other tools or earlier
  code) are modelled as seeded stores.
-/

namespace AIPayroll

instance {ε α : Type} [DecidableEq ε] [DecidableEq α] :
    DecidableEq (Except ε α) := fun a b =>
  match a, b with
  | .error e, .error f =>
    if h : e = f then .isTrue (by rw [h])
    else .isFalse (by intro hh; cases hh; exact h rfl)
  | .ok x, .ok y =>
    if h : x = y then .isTrue (by rw [h])
    else .isFalse (by intro hh; cases hh; exact h rfl)
  | .error _, .ok _ => .isFalse (by intro hh; cases hh)
  | .ok _, .error _ => .isFalse (by intro hh; cases hh)

inductive PaymentStatus
  | Pending | Processing | Paid | Failed | OnHold
  deriving DecidableEq, Repr, Inhabited

inductive ApprovalStatus
  | Pending | Approved | Rejected
  deriving DecidableEq, Repr, Inhabited

inductive EmployeeStatus
  | Active | Inactive | Terminated | OnLeave
  deriving DecidableEq, Repr, Inhabited

/-- Errors of the controller layer: HTTP 400 on the month/year presence
check (`ValidationError`), 400 on the period conflict and the duplicate
key of the unique index (`ConflictError`), 404 (`NotFoundError`). -/
inductive PError
  | validation | conflict | notFound
  deriving DecidableEq, Repr, Inhabited

/-- The `earnings.overtime` subdocument of `payrollSchema`. -/
structure Overtime where
  hours : Int := 0
  rate : Int := 0
  amount : Int := 0
  deriving DecidableEq, Repr, Inhabited

/-- The `earnings` subdocument of `payrollSchema` (Department.js). -/
structure Earnings where
  basicSalary : Int
  hra : Int := 0
  allowances : Int := 0
  bonuses : Int := 0
  incentives : Int := 0
  overtime : Overtime := {}
  arrears : Int := 0
  other : Int := 0
  deriving DecidableEq, Repr, Inhabited

/-- The `deductions` subdocument of `payrollSchema` (Department.js). -/
structure Deductions where
  tax : Int := 0
  providentFund : Int := 0
  employeeStateInsurance : Int := 0
  professionalTax : Int := 0
  insurance : Int := 0
  loan : Int := 0
  advance : Int := 0
  lateDeduction : Int := 0
  other : Int := 0
  deriving DecidableEq, Repr, Inhabited

/-- The `reimbursements` subdocument of `payrollSchema` (Department.js). -/
structure Reimbursements where
  travel : Int := 0
  medical : Int := 0
  food : Int := 0
  communication : Int := 0
  other : Int := 0
  deriving DecidableEq, Repr, Inhabited

/-- Calendar date, as produced by the JS `new Date(year, monthIndex, day)`
constructor after rollover resolution. -/
structure SDate where
  year : Int
  month : Int
  day : Int
  deriving DecidableEq, Repr, Inhabited

/-- One `Payroll` document (Department.js `payrollSchema`), restricted to
the fields the claims mention.  `rid` is the Mongo `_id`; `employee` and
`processedBy` are object-id references embedded as `Nat`. -/
structure PayrollRecord where
  rid : Nat
  employee : Nat
  month : Int
  year : Int
  payPeriodStart : SDate
  payPeriodEnd : SDate
  workingDays : Int
  daysPresent : Int
  daysAbsent : Int := 0
  earnings : Earnings
  deductions : Deductions
  reimbursements : Reimbursements
  grossSalary : Int
  totalEarnings : Option Int := none
  totalDeductions : Option Int := none
  totalReimbursements : Int := 0
  netSalary : Option Int := none
  paymentStatus : PaymentStatus := .Pending
  paymentDate : Option Int := none
  transactionId : Option String := none
  approvalStatus : ApprovalStatus := .Pending
  processedBy : Nat
  deriving DecidableEq, Repr, Inhabited

/-- The earnings sum of the pre-save hook (Department.js 320-328). -/
def earningsTotal (e : Earnings) : Int :=
  e.basicSalary + e.hra + e.allowances + e.bonuses + e.incentives +
    e.overtime.amount + e.arrears + e.other

/-- The deductions sum of the pre-save hook (Department.js 331-340). -/
def deductionsTotal (d : Deductions) : Int :=
  d.tax + d.providentFund + d.employeeStateInsurance + d.professionalTax +
    d.insurance + d.loan + d.advance + d.lateDeduction + d.other

/-- The reimbursements sum of the pre-save hook (Department.js 343-348). -/
def reimbursementsTotal (x : Reimbursements) : Int :=
  x.travel + x.medical + x.food + x.communication + x.other

/-- The `payrollSchema.pre('save')` middleware (Department.js 318-357):
recompute the three totals from the components and floor the net salary
at zero with `Math.max(0, ...)`.  It runs on the save path only — and
there only AFTER validation has already passed, because Mongoose's
`validateBeforeSave` hook precedes every user `pre('save')` hook. -/
def preSave (r : PayrollRecord) : PayrollRecord :=
  let tE := earningsTotal r.earnings
  let tD := deductionsTotal r.deductions
  let tR := reimbursementsTotal r.reimbursements
  { r with
    totalEarnings := some tE
    totalDeductions := some tD
    totalReimbursements := tR
    netSalary := some (max 0 (tE - tD + tR)) }

/-- Document validation on the save path, as Mongoose runs it before any
user `pre('save')` hook: the required paths with no default —
`totalEarnings`, `totalDeductions`, `netSalary` (Department.js 206-221)
— must be set, and `month` must lie within `min: 1`, `max: 12`
(Department.js 70-75).  `year` is merely `required`, with no range
constraint.  The other required fields (`earnings.basicSalary`,
`grossSalary`, the period boundaries, the attendance columns) are
always present on the record values of this embedding: the absence of
the employee's required `salary.basic` is handled before a record value
exists, in `mkPayrollData`. -/
def validRecord (r : PayrollRecord) : Bool :=
  r.totalEarnings.isSome && r.totalDeductions.isSome &&
    r.netSalary.isSome && 1 ≤ r.month && r.month ≤ 12

/-- The update validators run by `findByIdAndUpdate(..., {runValidators:
true})`: only paths present in the update are validated, so of the
constrained fields only the `month` min/max can matter (wherever the
body carries an earnings subdocument its `basicSalary` is a plain
number in this embedding, and required paths cannot be unset through
the `$set` bodies modelled here). -/
def validUpdate (r : PayrollRecord) : Bool :=
  1 ≤ r.month && r.month ≤ 12

/-- The match of the unique compound index
`payrollSchema.index({employee: 1, month: 1, year: 1}, {unique: true})`
(Department.js 304). -/
def sameTriple (a b : PayrollRecord) : Bool :=
  a.employee == b.employee && a.month == b.month && a.year == b.year

/-- The record store: the `payrolls` collection plus a fresh `_id`
counter. -/
structure Store where
  records : List PayrollRecord := []
  nextId : Nat := 0
  deriving DecidableEq, Repr, Inhabited

/-- MongoDB insert under the unique compound index of Department.js 304:
a document whose (employee, month, year) triple is already present is
rejected with a duplicate-key error; otherwise the document is appended
with a fresh `_id`.  The uniqueness check is part of the storage
primitive, not of controller code. -/
def Store.insert (s : Store) (r : PayrollRecord) : Except PError Store :=
  if s.records.any (fun q => sameTriple q r) then .error .conflict
  else .ok ⟨s.records ++ [{ r with rid := s.nextId }], s.nextId + 1⟩

/-- `Payroll.findById` on the store. -/
def Store.findById (s : Store) (id : Nat) : Option PayrollRecord :=
  s.records.find? (fun r => r.rid == id)

/-- Write-back of one document by `_id` (the effect of `document.save()`
or `findByIdAndUpdate` on an existing document). -/
def Store.replaceById (s : Store) (id : Nat) (r : PayrollRecord) : Store :=
  { s with records := s.records.map (fun q => if q.rid == id then r else q) }

/-- `Payroll.create(payrollData)`: Mongoose VALIDATES the document first
(`validateBeforeSave` precedes user `pre('save')` hooks), then the
pre-save totals hook runs, then the insert under the unique index.  A
document whose required totals paths are unset — every document the
controller builds — is rejected before the hook could compute them. -/
def Payroll.create (s : Store) (d : PayrollRecord) : Except PError Store :=
  if validRecord d then s.insert (preSave d) else .error .validation

/-- The `salary` subdocument of `employeeSchema` (Employee.js 75-92).
`basic` is required; `none` models an employee document in which it is
absent (the invalid salary configuration of the spec). -/
structure Salary where
  basic : Option Int
  hra : Int := 0
  allowances : Int := 0
  deriving DecidableEq, Repr

/-- The `deductions` subdocument of `employeeSchema` (Employee.js 95-112). -/
structure EmpDeductions where
  tax : Int := 0
  providentFund : Int := 0
  insurance : Int := 0
  other : Int := 0
  deriving DecidableEq, Repr, Inhabited

/-- An employee document, restricted to the fields the payroll engine
reads. -/
structure Employee where
  eid : Nat
  employeeId : String
  status : EmployeeStatus
  salary : Salary
  deductions : EmpDeductions
  deriving DecidableEq, Repr

/-- The `employeeSchema.virtual('grossSalary')` getter (Employee.js
205-208): `salary.basic + salary.hra + salary.allowances`; undefined
(`none`) when the required `salary.basic` is absent. -/
def Employee.grossSalary (e : Employee) : Option Int :=
  e.salary.basic.map (fun b => b + e.salary.hra + e.salary.allowances)

/-- JS `Date` leap-year rule (proleptic Gregorian). -/
def isLeapYear (y : Int) : Bool :=
  y % 4 == 0 && (y % 100 != 0 || y % 400 == 0)

/-- Number of days of month `m` of year `y` (`m` is 1-based). -/
def daysInMonth (y m : Int) : Int :=
  if m == 2 then (if isLeapYear y then 29 else 28)
  else if m == 4 || m == 6 || m == 9 || m == 11 then 30
  else 31

/-- `new Date(year, month - 1, 1)` of the controller: the first calendar
day of the period. -/
def periodStart (y m : Int) : SDate := ⟨y, m, 1⟩

/-- `new Date(year, month, 0)` of the controller: day 0 of the next
month rolls back to the last calendar day of month `m`. -/
def periodEnd (y m : Int) : SDate := ⟨y, m, daysInMonth y m⟩

/-- The `payrollData` object literal built per employee inside
`processPayroll` (controller 106-159): period boundaries from the JS
date arithmetic, the hardcoded 30/30 attendance snapshot, earnings and
deductions snapshotted from the employee configuration with all variable
components zero, zero reimbursements, `grossSalary` from the
`Employee.grossSalary` virtual, attributed to the initiator.  The
literal sets NO totals: `totalEarnings`, `totalDeductions` and
`netSalary` stay unset (`none`, their schema has no default), which is
why the subsequent `Payroll.create` always rejects the document at
validation.  When the employee's required `salary.basic` is absent no
record value exists at all: `none`. -/
def mkPayrollData (e : Employee) (month year : Int) (initiator : Nat) :
    Option PayrollRecord :=
  match e.salary.basic with
  | none => none
  | some basic =>
    some
      { rid := 0
        employee := e.eid
        month := month
        year := year
        payPeriodStart := periodStart year month
        payPeriodEnd := periodEnd year month
        workingDays := 30
        daysPresent := 30
        daysAbsent := 0
        earnings :=
          { basicSalary := basic
            hra := e.salary.hra
            allowances := e.salary.allowances
            bonuses := 0
            incentives := 0
            overtime := ⟨0, 0, 0⟩
            arrears := 0
            other := 0 }
        deductions :=
          { tax := e.deductions.tax
            providentFund := e.deductions.providentFund
            employeeStateInsurance := 0
            professionalTax := 0
            insurance := e.deductions.insurance
            loan := 0
            advance := 0
            lateDeduction := 0
            other := e.deductions.other }
        reimbursements := ⟨0, 0, 0, 0, 0⟩
        grossSalary := basic + e.salary.hra + e.salary.allowances
        processedBy := initiator }

/-- The per-employee `process` summary returned by the controller:
`{processed, failed, errors}` with errors keyed by `employeeId`. -/
structure Summary where
  processed : Nat
  failed : Nat
  errors : List String
  deriving DecidableEq, Repr

/-- One iteration of the `for (const employee of employees)` loop of
`processPayroll` (controller 103-169): build the payroll data, attempt
`Payroll.create`, and on any per-employee failure push the employee's
id onto the error list and continue. -/
def processStep (month year : Int) (initiator : Nat)
    (acc : Store × Nat × List String) (e : Employee) :
    Store × Nat × List String :=
  match mkPayrollData e month year initiator with
  | none => (acc.1, acc.2.1, acc.2.2 ++ [e.employeeId])
  | some d =>
    match Payroll.create acc.1 d with
    | .ok s₁ => (s₁, acc.2.1 + 1, acc.2.2)
    | .error _ => (acc.1, acc.2.1, acc.2.2 ++ [e.employeeId])

/-- `processPayroll` (controller 76-187): the JS-falsy presence check
`if (!month || !year)` (an `Int` is falsy exactly when it is 0), the
period-level conflict gate `Payroll.findOne({month, year})`, then the
per-employee loop over the Active employees. -/
def processPayroll (s : Store) (employees : List Employee)
    (month year : Int) (initiator : Nat) :
    Except PError (Store × Summary) :=
  if month == 0 || year == 0 then .error .validation
  else if s.records.any (fun r => r.month == month && r.year == year) then
    .error .conflict
  else
    let active := employees.filter (fun e => e.status == .Active)
    let res := active.foldl (processStep month year initiator) (s, 0, [])
    .ok (res.1, ⟨res.2.1, res.2.2.length, res.2.2⟩)

/-- The `req.body` of `updatePayroll`, restricted to the payroll fields
the claims mention; `none` means the field is absent from the body. -/
structure UpdateBody where
  earnings : Option Earnings := none
  deductions : Option Deductions := none
  reimbursements : Option Reimbursements := none
  grossSalary : Option Int := none
  totalEarnings : Option Int := none
  totalDeductions : Option Int := none
  totalReimbursements : Option Int := none
  netSalary : Option Int := none
  month : Option Int := none
  year : Option Int := none
  paymentStatus : Option PaymentStatus := none
  deriving DecidableEq, Repr

/-- The `$set` effect of `findByIdAndUpdate(id, req.body)`: fields
present in the body replace the stored ones (a nested object such as
`earnings` is replaced whole). -/
def applyUpdate (b : UpdateBody) (r : PayrollRecord) : PayrollRecord :=
  { r with
    earnings := b.earnings.getD r.earnings
    deductions := b.deductions.getD r.deductions
    reimbursements := b.reimbursements.getD r.reimbursements
    grossSalary := b.grossSalary.getD r.grossSalary
    totalEarnings :=
      match b.totalEarnings with
      | some v => some v
      | none => r.totalEarnings
    totalDeductions :=
      match b.totalDeductions with
      | some v => some v
      | none => r.totalDeductions
    totalReimbursements := b.totalReimbursements.getD r.totalReimbursements
    netSalary :=
      match b.netSalary with
      | some v => some v
      | none => r.netSalary
    month := b.month.getD r.month
    year := b.year.getD r.year
    paymentStatus := b.paymentStatus.getD r.paymentStatus }

/-- `updatePayroll` (controller 192-225): 404 when `findById` misses,
otherwise `findByIdAndUpdate(id, req.body, {new: true, runValidators:
true})`.  `findByIdAndUpdate` is a query-level update: it runs the
update validators (the `month` min/max) and the storage-layer unique
index, but it does NOT run the document pre-save middleware, so the
totals hook is skipped on this path. -/
def updatePayroll (s : Store) (id : Nat) (b : UpdateBody) :
    Except PError Store :=
  match s.findById id with
  | none => .error .notFound
  | some r =>
    let r' := applyUpdate b r
    if !(validUpdate r') then .error .validation
    else if s.records.any (fun q => q.rid != id && sameTriple q r') then
      .error .conflict
    else .ok (s.replaceById id r')

/-- `payrollSchema.methods.markAsPaid` (Department.js 402-407): set
`paymentStatus = 'Paid'`, `paymentDate = new Date()`,
`transactionId = transactionId` — unconditionally, with no guard on the
prior payment or approval state — then `this.save()`, which re-runs the
pre-save totals hook. -/
def markAsPaidDoc (now : Int) (t : String) (r : PayrollRecord) :
    PayrollRecord :=
  preSave { r with
    paymentStatus := .Paid
    paymentDate := some now
    transactionId := some t }

/-- The `markAsPaid` controller (controller 230-257): 404 when
`findById` misses, otherwise the instance method followed by the
write-back of the saved document. -/
def markAsPaid (s : Store) (id : Nat) (t : String) (now : Int) :
    Except PError Store :=
  match s.findById id with
  | none => .error .notFound
  | some r => .ok (s.replaceById id (markAsPaidDoc now t r))

/-- One stats row (the `$group` output of `getTotalPayroll`, or its
`result[0] || {...}` zero default). -/
structure PayrollStats where
  totalGross : Int
  totalEarnings : Int
  totalDeductions : Int
  totalNet : Int
  count : Nat
  deriving DecidableEq, Repr

/-- The `$match` stage of `getTotalPayroll` (Department.js 378):
`{ month, year, paymentStatus: { $ne: 'Failed' } }`. -/
def matchStage (m y : Int) (l : List PayrollRecord) : List PayrollRecord :=
  l.filter (fun r => r.month == m && r.year == y && r.paymentStatus != .Failed)

/-- The `$group` stage of `getTotalPayroll` (Department.js 381-388): on
a nonempty input, one row of sums and a count; on an empty input the
pipeline emits no row.  `$sum` contributes 0 for a document on which
the summed path is unset, hence the `getD 0` on the three optional
totals paths. -/
def groupStage (l : List PayrollRecord) : Option PayrollStats :=
  match l with
  | [] => none
  | _ =>
    some
      { totalGross := (l.map (fun r => r.grossSalary)).sum
        totalEarnings := (l.map (fun r => r.totalEarnings.getD 0)).sum
        totalDeductions := (l.map (fun r => r.totalDeductions.getD 0)).sum
        totalNet := (l.map (fun r => r.netSalary.getD 0)).sum
        count := l.length }

/-- `payrollSchema.statics.getTotalPayroll` (Department.js 375-399):
the match/group pipeline, with the `result[0] || {all zeroes}`
fallback. -/
def getTotalPayroll (s : Store) (m y : Int) : PayrollStats :=
  (groupStage (matchStage m y s.records)).getD ⟨0, 0, 0, 0, 0⟩

/-- The §3/§8 record invariant of the spec: the three stored totals are
set to the component sums and the net salary is the floored
difference. -/
def totalsInvariant (r : PayrollRecord) : Prop :=
  r.totalEarnings = some (earningsTotal r.earnings) ∧
  r.totalDeductions = some (deductionsTotal r.deductions) ∧
  r.totalReimbursements = reimbursementsTotal r.reimbursements ∧
  r.netSalary = some (max 0 (earningsTotal r.earnings -
    deductionsTotal r.deductions + reimbursementsTotal r.reimbursements))

instance (r : PayrollRecord) : Decidable (totalsInvariant r) := by
  unfold totalsInvariant; infer_instance

/-- The §3 fixed-component gross invariant of the spec. -/
def grossInvariant (r : PayrollRecord) : Prop :=
  r.grossSalary = r.earnings.basicSalary + r.earnings.hra + r.earnings.allowances

instance (r : PayrollRecord) : Decidable (grossInvariant r) := by
  unfold grossInvariant; infer_instance

/-! ### Concrete fixtures

The employee of the §8 example computation (basic 3000, hra 500,
allowances 200, tax 300, provident fund 150, insurance 50), a seeded
store holding the matching pre-existing collection record, and the
stores reached by running the embedded mutation operations on it. -/

def empAlice : Employee :=
  { eid := 1, employeeId := "EMP00001", status := .Active,
    salary := { basic := some 3000, hra := 500, allowances := 200 },
    deductions := { tax := 300, providentFund := 150, insurance := 50, other := 0 } }

/-- A payroll record as it would already sit in the collection (written
by earlier code or directly at the database): the §8 example values —
basic 3000, hra 500, allowances 200, tax 300, provident fund 150,
insurance 50 — with correct totals 3700/500/0 and net 3200, March 2024,
payment and approval Pending.  Pre-existing database state for
exercising the mutation paths. -/
def seedRec : PayrollRecord :=
  { rid := 0, employee := 1, month := 3, year := 2024,
    payPeriodStart := ⟨2024, 3, 1⟩, payPeriodEnd := ⟨2024, 3, 31⟩,
    workingDays := 30, daysPresent := 30,
    earnings := { basicSalary := 3000, hra := 500, allowances := 200 },
    deductions := { tax := 300, providentFund := 150, insurance := 50 },
    reimbursements := {},
    grossSalary := 3700, totalEarnings := some 3700,
    totalDeductions := some 500, totalReimbursements := 0,
    netSalary := some 3200, processedBy := 7 }

/-- A store holding exactly `seedRec`. -/
def seedStore : Store := ⟨[seedRec], 1⟩

/-- An update body replacing the earnings subdocument, with a 400 bonus
added and every fixed component unchanged. -/
def bonusBody : UpdateBody :=
  { earnings := some ⟨3000, 500, 200, 400, 0, ⟨0, 0, 0⟩, 0, 0⟩ }

/-- The store after `updatePayroll` applies `bonusBody` to the record of
`seedStore`. -/
def bonusStore : Store :=
  match updatePayroll seedStore 0 bonusBody with
  | .ok s => s
  | .error _ => default

/-- An update body adding a 250 incentive, fixed components unchanged. -/
def incentiveBody : UpdateBody :=
  { earnings := some ⟨3000, 500, 200, 0, 250, ⟨0, 0, 0⟩, 0, 0⟩ }

/-- The store after `updatePayroll` applies `incentiveBody` to the
record of `seedStore`. -/
def incentiveStore : Store :=
  match updatePayroll seedStore 0 incentiveBody with
  | .ok s => s
  | .error _ => default

/-- An update body replacing the earnings subdocument with a raised
basic salary (4000), leaving the stored `grossSalary` untouched. -/
def raiseBody : UpdateBody :=
  { earnings := some ⟨4000, 500, 200, 0, 0, ⟨0, 0, 0⟩, 0, 0⟩ }

/-- The store after `updatePayroll` applies `raiseBody` to the record of
`seedStore`. -/
def raiseStore : Store :=
  match updatePayroll seedStore 0 raiseBody with
  | .ok s => s
  | .error _ => default

/-- A minimal stored record used as aggregation test data: period
(5, 2024), every monetary total 1000, the given payment status. -/
def statRec (pid : Nat) (status : PaymentStatus) : PayrollRecord :=
  { rid := pid, employee := pid, month := 5, year := 2024,
    payPeriodStart := ⟨2024, 5, 1⟩, payPeriodEnd := ⟨2024, 5, 31⟩,
    workingDays := 30, daysPresent := 30,
    earnings := { basicSalary := 1000 }, deductions := {},
    reimbursements := {},
    grossSalary := 1000, totalEarnings := some 1000,
    totalDeductions := some 0, totalReimbursements := 0,
    netSalary := some 1000,
    paymentStatus := status, processedBy := 7 }

/-- The attendance/period snapshot of every record created by
`process`: the hardcoded 30/30 attendance and the computed calendar
boundaries of the period. -/
def snapshotShape (month year : Int) (r : PayrollRecord) : Prop :=
  r.workingDays = 30 ∧ r.daysPresent = 30 ∧
  r.payPeriodStart = periodStart year month ∧
  r.payPeriodEnd = periodEnd year month

instance (month year : Int) (r : PayrollRecord) :
    Decidable (snapshotShape month year r) := by
  unfold snapshotShape; infer_instance

/-- A ten-employee test roster builder. -/
def c7emp (k : Nat) (id : String) (basic : Option Int) : Employee :=
  { eid := k, employeeId := id, status := .Active,
    salary := { basic := basic, hra := 0, allowances := 0 },
    deductions := {} }

/-- Ten Active employees of which exactly the third has an invalid
salary configuration (its required basic salary is absent). -/
def c7emps : List Employee :=
  [c7emp 1 "EMP1" (some 1000), c7emp 2 "EMP2" (some 1100),
   c7emp 3 "EMP3" none, c7emp 4 "EMP4" (some 1200),
   c7emp 5 "EMP5" (some 1300), c7emp 6 "EMP6" (some 1400),
   c7emp 7 "EMP7" (some 1500), c7emp 8 "EMP8" (some 1600),
   c7emp 9 "EMP9" (some 1700), c7emp 10 "EMP10" (some 1800)]

/-- At most one record per (employee, month, year) triple. -/
def uniqueTriples (l : List PayrollRecord) : Prop :=
  l.Pairwise (fun a b => sameTriple a b = false)

instance (l : List PayrollRecord) : Decidable (uniqueTriples l) := by
  unfold uniqueTriples; infer_instance

/-- Store well-formedness: pairwise distinct triples, pairwise distinct
ids, and ids below the fresh-id counter.  The empty store is well
formed, and every store operation preserves it, so the triple
uniqueness is a global invariant of the reachable stores. -/
def WF (s : Store) : Prop :=
  uniqueTriples s.records ∧
  s.records.Pairwise (fun a b => a.rid ≠ b.rid) ∧
  ∀ r ∈ s.records, r.rid < s.nextId

instance (s : Store) : Decidable (WF s) := by
  unfold WF; infer_instance

/-! ### C1, C2 — the totals invariant across write paths -/

/-- C1: the claim that every persisted record satisfies the totals
invariant because the totals are recomputed before every write fails on
the code twice over.  (a) The only creation path never persists a
record at all: the controller's `payrollData` leaves the required
totals unset and Mongoose validates BEFORE the pre-save totals hook, so
`process` rejects every document and writes nothing (first conjunct:
the run returns processed 0 and leaves the store empty).  (b) On a
record already present in the collection and satisfying the invariant
(second conjunct), an earnings update — here a 400 bonus — persists
through `findByIdAndUpdate`, which skips the totals hook, so the stored
record afterwards violates the invariant (remaining conjuncts). -/
theorem c1_totals_invariant_unenforced :
    processPayroll ⟨[], 0⟩ [empAlice] 3 2024 7 =
      .ok (⟨[], 0⟩, ⟨0, 1, ["EMP00001"]⟩) ∧
    (∀ r ∈ seedStore.records, totalsInvariant r) ∧
    updatePayroll seedStore 0 bonusBody = .ok bonusStore ∧
    ∃ r ∈ bonusStore.records, ¬ totalsInvariant r := by
  decide

/-- C2: the claim that `update` recomputes the derived totals from the
updated components before persisting fails on the code: on a record
already present in the collection, an earnings update (a 250 incentive)
persists while still carrying the old `totalEarnings` — re-running the
totals computation would change the stored record.  The NotFoundError
half of the claim does hold (first conjunct). -/
theorem c2_update_skips_total_recompute :
    updatePayroll seedStore 99 incentiveBody = .error .notFound ∧
    updatePayroll seedStore 0 incentiveBody = .ok incentiveStore ∧
    ∃ r ∈ incentiveStore.records,
      r.totalEarnings ≠ some (earningsTotal r.earnings) ∧ preSave r ≠ r := by
  decide

/-! ### C5 — the month/year precondition -/

/-- C5 (counterexample): neither month = 13 nor year = -1 is rejected
with a ValidationError — both calls pass the falsy presence check and
the conflict gate and answer with a success summary (every employee
then fails inside the loop, where `Payroll.create` rejects the
document). -/
theorem c5_counterexample :
    processPayroll ⟨[], 0⟩ [empAlice] 13 2024 7 =
      .ok (⟨[], 0⟩, ⟨0, 1, ["EMP00001"]⟩) ∧
    processPayroll ⟨[], 0⟩ [empAlice] 3 (-1) 7 =
      .ok (⟨[], 0⟩, ⟨0, 1, ["EMP00001"]⟩) := by
  decide

/-- C5 (amended): the up-front ValidationError of `process` is the JS
falsy presence check — it fires, before any side effect, exactly when
month or year is 0 (absent); any other month/year, including month 13
and year -1, passes the gate and the call proceeds to the per-employee
loop, returning a success summary (in the current code every
per-employee create then fails schema validation and lands in the
error list). -/
theorem c5_falsy_gate (s : Store) (emps : List Employee)
    (month year : Int) (i : Nat) (h : month = 0 ∨ year = 0) :
    processPayroll s emps month year i = .error .validation := by
  unfold processPayroll
  rcases h with rfl | rfl <;> simp

/-- Witness for `c5_falsy_gate` at month = 0. -/
theorem c5_falsy_gate_witness :
    processPayroll ⟨[], 0⟩ [empAlice] 0 2024 7 = .error .validation :=
  c5_falsy_gate ⟨[], 0⟩ [empAlice] 0 2024 7 (Or.inl rfl)

/-! ### C6 — the fixed-component gross -/

/-- C6 (counterexample): on a record already present in the collection
and satisfying the gross equation, an update that raises
`earnings.basicSalary` to 4000 persists while keeping the old
`grossSalary` 3700, so the equation does not hold after every
mutation. -/
theorem c6_counterexample :
    (∀ r ∈ seedStore.records, grossInvariant r) ∧
    updatePayroll seedStore 0 raiseBody = .ok raiseStore ∧
    ∃ r ∈ raiseStore.records, ¬ grossInvariant r := by
  decide

/-- C6 (amended): grossSalary = earnings.basicSalary + earnings.hra +
earnings.allowances holds of every payroll document `process` builds
(both components are snapshotted from the employee's fixed salary
configuration, and the pre-save hook leaves gross and earnings
untouched), and it is preserved by `markAsPaid` and by any update whose
body touches neither `earnings` nor `grossSalary`.  No code path
re-derives it after a mutation of the fixed earnings components — and
in the current code the built document is never persisted at creation
anyway, since it fails required-totals validation. -/
theorem c6_gross_fixed_component :
    (∀ e month year i d, mkPayrollData e month year i = some d →
      grossInvariant d ∧ grossInvariant (preSave d)) ∧
    (∀ now t r, grossInvariant r → grossInvariant (markAsPaidDoc now t r)) ∧
    (∀ b r, b.earnings = none → b.grossSalary = none →
      grossInvariant r → grossInvariant (applyUpdate b r)) := by
  refine ⟨?_, ?_, ?_⟩
  · intro e month year i d hd
    cases hb : e.salary.basic with
    | none => simp [mkPayrollData, hb] at hd
    | some basic =>
      simp [mkPayrollData, hb] at hd
      subst hd
      exact ⟨by simp [grossInvariant], by simp [grossInvariant, preSave]⟩
  · intro now t r h
    simpa [grossInvariant, markAsPaidDoc, preSave] using h
  · intro b r he hg h
    simpa [grossInvariant, applyUpdate, he, hg] using h

/-- Witness for `c6_gross_fixed_component`: the document built for
`empAlice` satisfies the gross equation (before and after the pre-save
hook), and marking the seeded collection record paid preserves it. -/
theorem c6_gross_fixed_component_witness :
    grossInvariant ((mkPayrollData empAlice 3 2024 7).getD default) ∧
    grossInvariant (markAsPaidDoc 111 "TXN123"
      ((seedStore.findById 0).getD default)) :=
  ⟨(c6_gross_fixed_component.1 empAlice 3 2024 7
      ((mkPayrollData empAlice 3 2024 7).getD default) (by decide)).1,
   c6_gross_fixed_component.2.1 111 "TXN123"
      ((seedStore.findById 0).getD default) (by decide)⟩

/-! ### C8 — period aggregation -/

/-- C8: `getTotalPayroll` sums gross, earnings, deductions and net with
a count over exactly the records of the period whose payment status is
not Failed (first conjunct, covering the `result[0] || zeroes` fallback
of the empty group); a period with no matching record yields the zeroed
aggregate (second conjunct); a period holding one Failed and one Paid
record of net 1000 each yields totalNet = 1000 with count = 1 (third
conjunct). -/
theorem c8_stats_for_period :
    (∀ s m y, getTotalPayroll s m y =
      { totalGross := ((matchStage m y s.records).map (fun r => r.grossSalary)).sum
        totalEarnings := ((matchStage m y s.records).map (fun r => r.totalEarnings.getD 0)).sum
        totalDeductions := ((matchStage m y s.records).map (fun r => r.totalDeductions.getD 0)).sum
        totalNet := ((matchStage m y s.records).map (fun r => r.netSalary.getD 0)).sum
        count := (matchStage m y s.records).length }) ∧
    (∀ s m y,
      (∀ r ∈ s.records, ¬(r.month = m ∧ r.year = y ∧ r.paymentStatus ≠ .Failed)) →
      getTotalPayroll s m y = ⟨0, 0, 0, 0, 0⟩) ∧
    (∀ (r₁ r₂ : PayrollRecord) (n : Nat) (m y : Int),
      r₁.month = m → r₁.year = y → r₁.paymentStatus = .Failed →
      r₂.month = m → r₂.year = y → r₂.paymentStatus = .Paid →
      r₂.netSalary = some 1000 →
      (getTotalPayroll ⟨[r₁, r₂], n⟩ m y).totalNet = 1000 ∧
      (getTotalPayroll ⟨[r₁, r₂], n⟩ m y).count = 1) := by
  have key : ∀ s m y, getTotalPayroll s m y =
      { totalGross := ((matchStage m y s.records).map (fun r => r.grossSalary)).sum
        totalEarnings := ((matchStage m y s.records).map (fun r => r.totalEarnings.getD 0)).sum
        totalDeductions := ((matchStage m y s.records).map (fun r => r.totalDeductions.getD 0)).sum
        totalNet := ((matchStage m y s.records).map (fun r => r.netSalary.getD 0)).sum
        count := (matchStage m y s.records).length } := by
    intro s m y
    unfold getTotalPayroll
    cases h : matchStage m y s.records with
    | nil => simp [h, groupStage]
    | cons a l => simp [h, groupStage]
  refine ⟨key, ?_, ?_⟩
  · intro s m y hnone
    have hfil : matchStage m y s.records = [] := by
      rw [matchStage, List.filter_eq_nil_iff]
      intro r hr
      have := hnone r hr
      simp only [Bool.and_eq_true, beq_iff_eq, bne_iff_ne, ne_eq, not_and] at this ⊢
      intro ⟨h1, h2⟩
      exact this h1 h2
    rw [key, hfil]
    rfl
  · intro r₁ r₂ n m y h1m h1y h1s h2m h2y h2s h2n
    have hfil : matchStage m y (⟨[r₁, r₂], n⟩ : Store).records = [r₂] := by
      show matchStage m y [r₁, r₂] = [r₂]
      rw [matchStage, List.filter_cons, List.filter_cons]
      simp [h1m, h1y, h1s, h2m, h2y, h2s]
    rw [key ⟨[r₁, r₂], n⟩ m y, hfil]
    exact ⟨by simp [h2n], by simp⟩

/-- Witness for `c8_stats_for_period`: the zeroed aggregate on an empty
store, and totalNet = 1000, count = 1 over one Failed plus one Paid
record of net 1000. -/
theorem c8_stats_for_period_witness :
    getTotalPayroll ⟨[], 0⟩ 5 2024 = ⟨0, 0, 0, 0, 0⟩ ∧
    (getTotalPayroll ⟨[statRec 0 .Failed, statRec 1 .Paid], 2⟩ 5 2024).totalNet = 1000 ∧
    (getTotalPayroll ⟨[statRec 0 .Failed, statRec 1 .Paid], 2⟩ 5 2024).count = 1 :=
  ⟨c8_stats_for_period.2.1 ⟨[], 0⟩ 5 2024 (by decide),
   (c8_stats_for_period.2.2 (statRec 0 .Failed) (statRec 1 .Paid) 2 5 2024
      rfl rfl rfl rfl rfl rfl rfl).1,
   (c8_stats_for_period.2.2 (statRec 0 .Failed) (statRec 1 .Paid) 2 5 2024
      rfl rfl rfl rfl rfl rfl rfl).2⟩

/-! ### C9 — markPaid -/

/-- A found record carries the id it was found by. -/
theorem findById_rid (s : Store) (id : Nat) (r : PayrollRecord)
    (h : s.findById id = some r) : r.rid = id := by
  have := List.find?_some h
  simpa using this

/-- Replacing the found record by a record with the same id makes
`findById` return the replacement. -/
theorem find_after_replace (l : List PayrollRecord) (id : Nat)
    (r' : PayrollRecord)
    (h : (l.find? (fun q => q.rid == id)).isSome = true) (hr : r'.rid = id) :
    ((l.map (fun q => if q.rid == id then r' else q)).find?
      (fun q => q.rid == id)) = some r' := by
  induction l with
  | nil => simp at h
  | cons a l ih =>
    by_cases ha : a.rid = id
    · simp only [List.map_cons, if_pos (by simp [ha] : (a.rid == id) = true)]
      exact List.find?_cons_of_pos _ (by simp [hr])
    · rw [List.find?_cons_of_neg _ (by simp [ha])] at h
      simp only [List.map_cons, if_neg (by simp [ha] : ¬(a.rid == id) = true)]
      rw [List.find?_cons_of_neg _ (by simp [ha])]
      exact ih h

/-- C9: `markPaid` on a stored record — with no hypothesis on the prior
payment or approval state — persists a record with paymentStatus Paid,
paymentDate set to the call time (hence non-null) and the supplied
transaction id (first conjunct); an unknown record id yields
NotFoundError (second conjunct); a repeat call with a different
transaction id and time overwrites both stored values (third
conjunct). -/
theorem c9_mark_paid :
    (∀ s id t now r, s.findById id = some r →
      markAsPaid s id t now = .ok (s.replaceById id (markAsPaidDoc now t r)) ∧
      (s.replaceById id (markAsPaidDoc now t r)).findById id =
        some (markAsPaidDoc now t r) ∧
      (markAsPaidDoc now t r).paymentStatus = .Paid ∧
      (markAsPaidDoc now t r).paymentDate = some now ∧
      (markAsPaidDoc now t r).transactionId = some t) ∧
    (∀ s id t now, s.findById id = none →
      markAsPaid s id t now = .error .notFound) ∧
    (∀ s id t now t' now' r, s.findById id = some r →
      ∃ s₁ s₂ q, markAsPaid s id t now = .ok s₁ ∧
        markAsPaid s₁ id t' now' = .ok s₂ ∧ s₂.findById id = some q ∧
        q.transactionId = some t' ∧ q.paymentDate = some now' ∧
        q.paymentStatus = .Paid) := by
  have hfound : ∀ (s : Store) (id : Nat) (t : String) (now : Int) r,
      s.findById id = some r →
      markAsPaid s id t now = .ok (s.replaceById id (markAsPaidDoc now t r)) ∧
      (s.replaceById id (markAsPaidDoc now t r)).findById id =
        some (markAsPaidDoc now t r) := by
    intro s id t now r h
    constructor
    · unfold markAsPaid
      rw [h]
    · have hr : (markAsPaidDoc now t r).rid = id := findById_rid s id r h
      unfold Store.findById Store.replaceById
      exact find_after_replace s.records id (markAsPaidDoc now t r)
        (by unfold Store.findById at h; simp [h]) hr
  refine ⟨?_, ?_, ?_⟩
  · intro s id t now r h
    exact ⟨(hfound s id t now r h).1, (hfound s id t now r h).2, rfl, rfl, rfl⟩
  · intro s id t now h
    unfold markAsPaid
    rw [h]
  · intro s id t now t' now' r h
    obtain ⟨h1, h2⟩ := hfound s id t now r h
    obtain ⟨h3, h4⟩ := hfound _ id t' now' (markAsPaidDoc now t r) h2
    exact ⟨_, _, markAsPaidDoc now' t' (markAsPaidDoc now t r),
      h1, h3, h4, rfl, rfl, rfl⟩

/-- Witness for `c9_mark_paid` on the seeded collection record (whose
prior payment status is Pending) and on an unknown id. -/
theorem c9_mark_paid_witness :
    markAsPaid seedStore 0 "TXN123" 111 =
      .ok (seedStore.replaceById 0
        (markAsPaidDoc 111 "TXN123" ((seedStore.findById 0).getD default))) ∧
    markAsPaid seedStore 99 "TXN123" 111 = .error .notFound :=
  ⟨(c9_mark_paid.1 seedStore 0 "TXN123" 111
      ((seedStore.findById 0).getD default) (by decide)).1,
   c9_mark_paid.2.1 seedStore 99 "TXN123" 111 (by decide)⟩

/-! ### C10 — the hardcoded attendance snapshot -/

/-- Fields the controller's `payrollData` literal fixes for every
employee: the period columns, the period boundaries from the JS date
arithmetic, and the hardcoded 30/30 attendance. -/
theorem mkPayrollData_fields (e : Employee) (month year : Int) (i : Nat)
    (d : PayrollRecord) (h : mkPayrollData e month year i = some d) :
    d.employee = e.eid ∧ d.month = month ∧ d.year = year ∧
    d.workingDays = 30 ∧ d.daysPresent = 30 ∧
    d.payPeriodStart = periodStart year month ∧
    d.payPeriodEnd = periodEnd year month := by
  cases hb : e.salary.basic with
  | none => rw [mkPayrollData, hb] at h; cases h
  | some basic =>
    rw [mkPayrollData, hb] at h
    cases h
    exact ⟨rfl, rfl, rfl, rfl, rfl, rfl, rfl⟩

/-- C10: the attendance snapshot of every payroll document `process`
builds is the hardcoded 30/30 literal of the controller, regardless of
the month, while its payPeriodEnd is the month's true last calendar day
(first conjunct, before and after the pre-save hook); February 2023 has
28 days and February 2024 has 29 (calendar conjuncts), so the built
February documents assert 30 working days over shorter periods.  But
the claim's subject — records actually created — is empty: the built
document leaves the required totals unset, every create is rejected at
validation, and a February run persists nothing (last conjunct). -/
theorem c10_hardcoded_attendance :
    (∀ e month year i d, mkPayrollData e month year i = some d →
      snapshotShape month year d ∧ snapshotShape month year (preSave d)) ∧
    (periodEnd 2023 2).day = 28 ∧ (periodEnd 2024 2).day = 29 ∧
    (periodEnd 2024 4).day = 30 ∧ (periodEnd 2024 1).day = 31 ∧
    processPayroll ⟨[], 0⟩ [empAlice] 2 2023 7 =
      .ok (⟨[], 0⟩, ⟨0, 1, ["EMP00001"]⟩) := by
  refine ⟨?_, by decide, by decide, by decide, by decide, by decide⟩
  intro e month year i d hd
  obtain ⟨_, _, _, hw, hp, hs, he⟩ := mkPayrollData_fields e month year i d hd
  exact ⟨⟨hw, hp, hs, he⟩, ⟨hw, hp, hs, he⟩⟩

/-- Witness for `c10_hardcoded_attendance`: the document built for
February 2023 claims 30 working days although its payPeriodEnd is
February 28. -/
theorem c10_hardcoded_attendance_witness :
    snapshotShape 2 2023 ((mkPayrollData empAlice 2 2023 7).getD default) ∧
    (periodEnd 2023 2).day = 28 :=
  ⟨(c10_hardcoded_attendance.1 empAlice 2 2023 7
      ((mkPayrollData empAlice 2 2023 7).getD default) (by decide)).1,
   c10_hardcoded_attendance.2.1⟩

/-! ### C4 — the period-level conflict gate -/

/-- C4: the gate itself is implemented as the claim describes — with a
period actually identifying a period (month and year nonzero), the
presence of any record for (month, year), for any employee, makes
`process` reject the whole call with ConflictError before touching any
employee (first conjunct; the pure model returns no store on an error,
so nothing is written).  But the claim's `process; process` instance
fails on the code: the first `process(3, 2024)` persists nothing — every
per-employee create is rejected for unset required totals — and leaves
the store unchanged (second conjunct), so the second identical call is
the very same computation on the very same store and returns another
success summary, not ConflictError (third conjunct). -/
theorem c4_conflict_gate_never_armed :
    (∀ s emps month year i, month ≠ 0 → year ≠ 0 →
      (∃ r ∈ s.records, r.month = month ∧ r.year = year) →
      processPayroll s emps month year i = .error .conflict) ∧
    processPayroll ⟨[], 0⟩ [empAlice] 3 2024 7 =
      .ok (⟨[], 0⟩, ⟨0, 1, ["EMP00001"]⟩) ∧
    processPayroll ⟨[], 0⟩ [empAlice] 3 2024 7 ≠ .error .conflict := by
  refine ⟨?_, by decide, by decide⟩
  rintro s emps month year i hm hy ⟨r, hr, hrm, hry⟩
  have hfalsy : (month == 0 || year == 0) = false := by simp [hm, hy]
  have hany : s.records.any
      (fun q => q.month == month && q.year == year) = true :=
    List.any_eq_true.mpr ⟨r, hr, by simp [hrm, hry]⟩
  simp [processPayroll, hfalsy, hany]

/-- Witness for `c4_conflict_gate_never_armed`: `process(3, 2024)`
against the seeded store holding a March 2024 record is rejected with
ConflictError. -/
theorem c4_conflict_gate_witness :
    processPayroll seedStore [empAlice] 3 2024 7 = .error .conflict :=
  c4_conflict_gate_never_armed.1 seedStore [empAlice] 3 2024 7
    (by decide) (by decide)
    ⟨seedStore.records.getD 0 default, by decide, by decide, by decide⟩

/-! ### C7 — the per-employee loop -/

/-- Every document the controller builds leaves the required totals
unset, so schema validation rejects it before the totals hook could
run. -/
theorem mkPayrollData_totals_unset (e : Employee) (month year : Int)
    (i : Nat) (d : PayrollRecord)
    (h : mkPayrollData e month year i = some d) :
    d.totalEarnings = none ∧ d.totalDeductions = none ∧
    d.netSalary = none ∧ validRecord d = false := by
  cases hb : e.salary.basic with
  | none => rw [mkPayrollData, hb] at h; cases h
  | some basic =>
    rw [mkPayrollData, hb] at h
    cases h
    exact ⟨rfl, rfl, rfl, rfl⟩

/-- With every create rejected at validation, the loop leaves the store
untouched, counts nothing as processed, and collects every employee's
id — for any starting state. -/
theorem fold_all_fail (month year : Int) (i : Nat) :
    ∀ (l : List Employee) (s : Store) (n : Nat) (errs : List String),
      l.foldl (processStep month year i) (s, n, errs) =
        (s, n, errs ++ l.map (fun e => e.employeeId)) := by
  intro l
  induction l with
  | nil => intro s n errs; simp
  | cons e l ih =>
    intro s n errs
    rw [List.foldl_cons]
    have hstep : processStep month year i (s, n, errs) e =
        (s, n, errs ++ [e.employeeId]) := by
      cases hd : mkPayrollData e month year i with
      | none => simp [processStep, hd]
      | some d =>
        have hv := (mkPayrollData_totals_unset e month year i d hd).2.2.2
        have hcr : Payroll.create s d = .error .validation := by
          simp [Payroll.create, hv]
        simp [processStep, hd, hcr]
    rw [hstep, ih]
    simp

/-- C7: the loop does catch each employee's failure and continue — but
because Mongoose validates BEFORE the pre-save totals hook and the
controller's `payrollData` leaves the required totalEarnings,
totalDeductions and netSalary unset, EVERY per-employee create fails:
for any period passing the presence check and the conflict gate,
`process` returns processed = 0, failed = the number of Active
employees, with every Active employee's id in the error list and the
store unchanged.  At the claim's ten-employee instance the result is
0/10, not the claimed 9/1 (see the witness). -/
theorem c7_every_create_fails (s : Store) (emps : List Employee)
    (month year : Int) (i : Nat) (hm : month ≠ 0) (hy : year ≠ 0)
    (hfree : ∀ r ∈ s.records, ¬(r.month = month ∧ r.year = year)) :
    processPayroll s emps month year i = .ok (s,
      { processed := 0
        failed := (emps.filter (fun e => e.status == .Active)).length
        errors := (emps.filter (fun e => e.status == .Active)).map
          (fun e => e.employeeId) }) := by
  have hfalsy : (month == 0 || year == 0) = false := by simp [hm, hy]
  have hany : s.records.any
      (fun q => q.month == month && q.year == year) = false := by
    rw [List.any_eq_false]
    intro q hq hqt
    simp only [Bool.and_eq_true, beq_iff_eq] at hqt
    exact hfree q hq ⟨hqt.1, hqt.2⟩
  simp only [processPayroll, hfalsy, hany, Bool.false_eq_true, if_false]
  rw [fold_all_fail]
  simp

/-- Witness for `c7_every_create_fails`: the ten-employee roster —
one of them with an invalid configuration — yields processed 0 and
failed 10 with all ten ids in the error list. -/
theorem c7_every_create_fails_witness :
    processPayroll ⟨[], 0⟩ c7emps 3 2024 7 = .ok (⟨[], 0⟩,
      ⟨0, 10, ["EMP1", "EMP2", "EMP3", "EMP4", "EMP5", "EMP6", "EMP7",
        "EMP8", "EMP9", "EMP10"]⟩) := by
  have h := c7_every_create_fails ⟨[], 0⟩ c7emps 3 2024 7
    (by decide) (by decide) (by decide)
  rw [h, Except.ok.injEq, Prod.mk.injEq]
  exact ⟨rfl, by decide⟩

/-! ### C3 — uniqueness of the (employee, month, year) triple -/

/-- The unique-index match is symmetric. -/
theorem sameTriple_comm (a b : PayrollRecord) :
    sameTriple a b = sameTriple b a := by
  rw [Bool.eq_iff_iff]
  simp only [sameTriple, Bool.and_eq_true, beq_iff_eq]
  constructor
  · rintro ⟨⟨h1, h2⟩, h3⟩; exact ⟨⟨h1.symm, h2.symm⟩, h3.symm⟩
  · rintro ⟨⟨h1, h2⟩, h3⟩; exact ⟨⟨h1.symm, h2.symm⟩, h3.symm⟩

theorem uniqueTriples_symm :
    Symmetric (fun a b : PayrollRecord => sameTriple a b = false) := by
  intro a b h
  show sameTriple b a = false
  rw [← sameTriple_comm]
  exact h

/-- A duplicate triple is rejected by the store's insert primitive. -/
theorem insert_rejects (s : Store) (q r : PayrollRecord)
    (hq : q ∈ s.records) (ht : sameTriple q r = true) :
    s.insert r = .error .conflict := by
  have hany : s.records.any (fun q => sameTriple q r) = true :=
    List.any_eq_true.mpr ⟨q, hq, ht⟩
  simp [Store.insert, hany]

/-- A successful insert preserves well-formedness. -/
theorem WF_insert (s : Store) (r : PayrollRecord) (s' : Store)
    (hwf : WF s) (h : s.insert r = .ok s') : WF s' := by
  unfold Store.insert at h
  split at h
  · cases h
  · next hany =>
    cases h
    obtain ⟨hu, hrid, hb⟩ := hwf
    have hany' : s.records.any (fun q => sameTriple q r) = false := by
      simpa using hany
    refine ⟨?_, ?_, ?_⟩
    · rw [uniqueTriples, List.pairwise_append]
      refine ⟨hu, List.pairwise_singleton _ _, ?_⟩
      intro a ha b hb'
      have hbnr : b = { r with rid := s.nextId } := by simpa using hb'
      subst hbnr
      show sameTriple a r = false
      simpa using List.any_eq_false.mp hany' a ha
    · rw [List.pairwise_append]
      refine ⟨hrid, List.pairwise_singleton _ _, ?_⟩
      intro a ha b hb'
      have hbnr : b = { r with rid := s.nextId } := by simpa using hb'
      subst hbnr
      have := hb a ha
      show a.rid ≠ s.nextId
      omega
    · intro q hq
      rcases List.mem_append.mp hq with hq' | hq'
      · exact Nat.lt_succ_of_lt (hb q hq')
      · have hqr : q = { r with rid := s.nextId } := by simpa using hq'
        subst hqr
        exact Nat.lt_succ_self _

/-- Successful creation preserves well-formedness. -/
theorem WF_create (s : Store) (d : PayrollRecord) (s' : Store)
    (hwf : WF s) (h : Payroll.create s d = .ok s') : WF s' := by
  simp only [Payroll.create] at h
  split at h
  · exact WF_insert s (preSave d) s' hwf h
  · cases h

/-- One loop iteration preserves well-formedness. -/
theorem WF_processStep (month year : Int) (i : Nat)
    (acc : Store × Nat × List String) (e : Employee)
    (hwf : WF acc.1) : WF (processStep month year i acc e).1 := by
  unfold processStep
  split
  · exact hwf
  · next d hd =>
    split
    · next s₁ hc => exact WF_create acc.1 d s₁ hwf hc
    · exact hwf

/-- The whole loop preserves well-formedness. -/
theorem WF_fold (month year : Int) (i : Nat) :
    ∀ (l : List Employee) (acc : Store × Nat × List String),
      WF acc.1 → WF ((l.foldl (processStep month year i) acc)).1 := by
  intro l
  induction l with
  | nil => exact fun acc h => h
  | cons e l ih =>
    intro acc h
    rw [List.foldl_cons]
    exact ih _ (WF_processStep month year i acc e h)

/-- Replacing one stored document by a document with the same id whose
triple collides with no other stored record preserves
well-formedness. -/
theorem WF_replace (s : Store) (id : Nat) (doc : PayrollRecord)
    (hwf : WF s) (hdoc : doc.rid = id)
    (hguard : ∀ q ∈ s.records, q.rid ≠ id → sameTriple q doc = false) :
    WF (s.replaceById id doc) := by
  obtain ⟨hu, hrid, hbound⟩ := hwf
  have hfr : ∀ q : PayrollRecord,
      ((if q.rid == id then doc else q) : PayrollRecord).rid = q.rid := by
    intro q
    by_cases h : q.rid = id
    · rw [if_pos (by simp [h]), hdoc, h]
    · rw [if_neg (by simp [h])]
  refine ⟨?_, ?_, ?_⟩
  · rw [uniqueTriples, Store.replaceById, List.pairwise_map]
    have hcomb := List.Pairwise.and_mem.mp (hu.and hrid)
    refine hcomb.imp ?_
    rintro a b ⟨ha, hb, hst, hne⟩
    by_cases haid : a.rid = id <;> by_cases hbid : b.rid = id
    · exact absurd (haid.trans hbid.symm) hne
    · rw [if_pos (by simp [haid]), if_neg (by simp [hbid])]
      rw [sameTriple_comm]
      exact hguard b hb hbid
    · rw [if_neg (by simp [haid]), if_pos (by simp [hbid])]
      exact hguard a ha haid
    · rw [if_neg (by simp [haid]), if_neg (by simp [hbid])]
      exact hst
  · rw [Store.replaceById, List.pairwise_map]
    refine hrid.imp ?_
    intro a b hab
    rw [hfr a, hfr b]
    exact hab
  · intro q hq
    rw [Store.replaceById] at hq
    obtain ⟨a, ha, rfl⟩ := List.mem_map.mp hq
    show ((if a.rid == id then doc else a) : PayrollRecord).rid < s.nextId
    rw [hfr a]
    exact hbound a ha

/-- Whole-`process` runs preserve well-formedness. -/
theorem WF_process (s : Store) (emps : List Employee) (month year : Int)
    (i : Nat) (p : Store × Summary) (hwf : WF s)
    (h : processPayroll s emps month year i = .ok p) : WF p.1 := by
  simp only [processPayroll] at h
  split at h
  · cases h
  · split at h
    · cases h
    · injection h with h2
      rw [Prod.mk.injEq] at h2
      rw [← h2.1]
      exact WF_fold month year i _ (s, 0, []) hwf

/-- `updatePayroll` preserves well-formedness: the unique index applies
at write time on this path too. -/
theorem WF_update (s : Store) (id : Nat) (b : UpdateBody) (s' : Store)
    (hwf : WF s) (h : updatePayroll s id b = .ok s') : WF s' := by
  unfold updatePayroll at h
  split at h
  · cases h
  · next r hf =>
    simp only [] at h
    split at h
    · cases h
    · split at h
      · cases h
      · next hguard =>
        cases h
        have hdoc : (applyUpdate b r).rid = id := findById_rid s id r hf
        apply WF_replace s id (applyUpdate b r) hwf hdoc
        intro q hq hne
        have hg : ∀ x ∈ s.records, ¬x.rid = id →
            sameTriple x (applyUpdate b r) = false := by
          simpa using hguard
        exact hg q hq hne

/-- `markAsPaid` preserves well-formedness: it changes no component of
the stored triple. -/
theorem WF_markAsPaid (s : Store) (id : Nat) (t : String) (now : Int)
    (s' : Store) (hwf : WF s) (h : markAsPaid s id t now = .ok s') :
    WF s' := by
  unfold markAsPaid at h
  split at h
  · cases h
  · next r hf =>
    cases h
    have hdoc : (markAsPaidDoc now t r).rid = id := findById_rid s id r hf
    apply WF_replace s id (markAsPaidDoc now t r) hwf hdoc
    intro q hq hne
    show sameTriple q r = false
    have hrmem : r ∈ s.records :=
      List.mem_of_find?_eq_some hf
    have hqr : q ≠ r := fun he => hne (by rw [he]; exact findById_rid s id r hf)
    exact hwf.1.forall uniqueTriples_symm hq hrmem hqr

/-- C3: uniqueness of (employee, month, year) is a storage-layer
guarantee: the store's insert primitive — the unique compound index —
rejects a second create whose triple is already present (first
conjunct), and every operation of the engine (insert, create, a whole
`process` run, `update`, `markPaid`) preserves store well-formedness,
whose first component is triple uniqueness, so at most one record per
triple ever exists in a reachable store (remaining conjuncts). -/
theorem c3_storage_uniqueness :
    (∀ (s : Store) (q r : PayrollRecord), q ∈ s.records →
      sameTriple q r = true → s.insert r = .error .conflict) ∧
    (∀ s r s', WF s → s.insert r = .ok s' → WF s') ∧
    (∀ s d s', WF s → Payroll.create s d = .ok s' → WF s') ∧
    (∀ s emps month year i p, WF s →
      processPayroll s emps month year i = .ok p → WF p.1) ∧
    (∀ s id b s', WF s → updatePayroll s id b = .ok s' → WF s') ∧
    (∀ s id t now s', WF s → markAsPaid s id t now = .ok s' → WF s') :=
  ⟨insert_rejects,
   fun s r s' hwf h => WF_insert s r s' hwf h,
   fun s d s' hwf h => WF_create s d s' hwf h,
   fun s emps month year i p hwf h => WF_process s emps month year i p hwf h,
   fun s id b s' hwf h => WF_update s id b s' hwf h,
   fun s id t now s' hwf h => WF_markAsPaid s id t now s' hwf h⟩

/-- Witness for `c3_storage_uniqueness`: re-inserting the seeded
record's triple is rejected by the store, and inserting it into the
empty store yields a well-formed store. -/
theorem c3_storage_uniqueness_witness :
    seedStore.insert (seedStore.records.getD 0 default) = .error .conflict ∧
    WF seedStore :=
  ⟨c3_storage_uniqueness.1 seedStore (seedStore.records.getD 0 default)
      (seedStore.records.getD 0 default) (by decide) (by decide),
   c3_storage_uniqueness.2.1 ⟨[], 0⟩ seedRec seedStore
      (by decide) (by decide)⟩

end AIPayroll
